import Mathlib

/-!
Verification of the text2sql access-control core.

Shallow embedding of the repository code. Python strings are modelled
as `List Char`; the regex-based SQL rewriting of
`src/agents/sql_filter_agent.py` is embedded by pattern-specific
matchers that reproduce the behaviour of the `re` patterns used by the
source on the (ASCII) inputs the component handles. Python `None` maps
to `Option.none`, Python falsiness of strings to emptiness.
-/

namespace Text2Sql

/-- Single-quote character, written by code point to keep SQL literals readable. -/
def sq : Char := Char.ofNat 39

/-- Python whitespace characters stripped by str.rstrip and matched by regex backslash-s (ASCII range). -/
def isSpaceCharL (c : Char) : Bool :=
  c == ' ' || c == '\t' || c == '\n' || c == '\r' ||
    c == Char.ofNat 11 || c == Char.ofNat 12

/-- Word characters of the regex class backslash-w (ASCII range). -/
def isWordCharL (c : Char) : Bool :=
  (decide (97 ≤ c.toNat) && decide (c.toNat ≤ 122)) ||
  (decide (65 ≤ c.toNat) && decide (c.toNat ≤ 90)) ||
  (decide (48 ≤ c.toNat) && decide (c.toNat ≤ 57)) ||
  c == '_'

/-- ASCII lower-casing, modelling str.lower on the ASCII inputs used here. -/
def lowerChar (c : Char) : Char := c.toLower

/-- Lower-case a whole string. -/
def lowerL (l : List Char) : List Char := l.map lowerChar

/-- Python str.rstrip with no argument. -/
def pyRstrip (l : List Char) : List Char :=
  (l.reverse.dropWhile isSpaceCharL).reverse

/-- Python str.lstrip with no argument. -/
def pyLstrip (l : List Char) : List Char :=
  l.dropWhile isSpaceCharL

/-- Python str.strip with no argument. -/
def pyStrip (l : List Char) : List Char := pyRstrip (pyLstrip l)

/-- Substring containment, modelling the Python `in` operator on strings. -/
def containsSub (needle : List Char) : List Char → Bool
  | [] => needle.isEmpty
  | c :: rest => needle.isPrefixOf (c :: rest) || containsSub needle rest

/-- Word boundary on the left of the current position: start of input or a non-word character. -/
def word_boundary (prev : Option Char) : Bool :=
  match prev with
  | none => true
  | some c => !isWordCharL c

/-- Word boundary on the right: end of input or a non-word character. -/
def boundary_after : List Char → Bool
  | [] => true
  | c :: _ => !isWordCharL c

/-- Consume an exact literal from the front of the input. -/
def strip_lit : List Char → List Char → Option (List Char)
  | [], l => some l
  | _ :: _, [] => none
  | p :: ps, c :: cs => if c = p then strip_lit ps cs else none

/-- Consume a lower-case literal from the front of the input, case-insensitively. -/
def strip_ci : List Char → List Char → Option (List Char)
  | [], l => some l
  | _ :: _, [] => none
  | p :: ps, c :: cs => if lowerChar c = p then strip_ci ps cs else none

/-- Consume one or more whitespace characters (greedy backslash-s-plus). -/
def strip_ws1 : List Char → Option (List Char)
  | [] => none
  | c :: cs => if isSpaceCharL c then some (cs.dropWhile isSpaceCharL) else none

/-- Maximal run of word characters at the front of the input. -/
def take_word_run (l : List Char) : List Char × List Char :=
  (l.takeWhile isWordCharL, l.dropWhile isWordCharL)

/--
Alias part of the table-reference regex: after the table name, the
source pattern continues with backslash-s-plus, an optional `AS`
followed by whitespace, and a captured word run. Returns the captured
alias, or none when no word run follows.
-/
def match_alias_part (l : List Char) : Option (List Char) :=
  match strip_ws1 l with
  | none => none
  | some r =>
    let viaAs : Option (List Char) :=
      match strip_lit ("as".toList) r with
      | none => none
      | some r2 =>
        match strip_ws1 r2 with
        | none => none
        | some r3 =>
          match take_word_run r3 with
          | ([], _) => none
          | (w, _) => some w
    match viaAs with
    | some w => some w
    | none =>
      match take_word_run r with
      | ([], _) => none
      | (w, _) => some w

/-- Consume `FROM` or `JOIN` at the front (input already lower-cased). -/
def strip_from_join (l : List Char) : Option (List Char) :=
  match strip_lit ("from".toList) l with
  | some r => some r
  | none => strip_lit ("join".toList) l

/-- First source pattern: FROM or JOIN, the table name, then an alias. -/
def table_ref_alias_at (t : List Char) (prev : Option Char) (l : List Char) :
    Option (List Char) :=
  if !word_boundary prev then none else
  match strip_from_join l with
  | none => none
  | some r1 =>
    match strip_ws1 r1 with
    | none => none
    | some r2 =>
      match strip_lit t r2 with
      | none => none
      | some r3 => match_alias_part r3

/-- Second source pattern: FROM or JOIN, the bracketed table name, then an alias. -/
def table_ref_alias_bracket_at (t : List Char) (prev : Option Char) (l : List Char) :
    Option (List Char) :=
  if !word_boundary prev then none else
  match strip_from_join l with
  | none => none
  | some r1 =>
    match strip_ws1 r1 with
    | none => none
    | some r2 =>
      match strip_lit ('[' :: (t ++ [']'])) r2 with
      | none => none
      | some r3 => match_alias_part r3

/-- Third source pattern: FROM or JOIN, then the bare table name at a word boundary. -/
def table_ref_bare_at (t : List Char) (prev : Option Char) (l : List Char) :
    Option Unit :=
  if !word_boundary prev then none else
  match strip_from_join l with
  | none => none
  | some r1 =>
    match strip_ws1 r1 with
    | none => none
    | some r2 =>
      match strip_lit t r2 with
      | none => none
      | some r3 => if boundary_after r3 then some () else none

/-- Fourth source pattern: FROM or JOIN, then the bracketed table name. -/
def table_ref_bare_bracket_at (t : List Char) (prev : Option Char) (l : List Char) :
    Option Unit :=
  if !word_boundary prev then none else
  match strip_from_join l with
  | none => none
  | some r1 =>
    match strip_ws1 r1 with
    | none => none
    | some r2 =>
      match strip_lit ('[' :: (t ++ [']'])) r2 with
      | none => none
      | some _ => some ()

/-- Leftmost match search: try the matcher at every position, tracking the previous character for word boundaries. -/
def search_opt {α : Type} (f : Option Char → List Char → Option α) :
    Option Char → List Char → Option α
  | prev, [] => f prev []
  | prev, c :: rest =>
    match f prev (c :: rest) with
    | some a => some a
    | none => search_opt f (some c) rest

/-- Reserved words that the source refuses to treat as aliases. -/
def alias_keywords : List (List Char) :=
  ["where", "order", "group", "having", "limit", "union", "select"].map String.toList

/--
Embedding of SQLFilterAgent get table reference: returns the alias of
the table when one is captured and is not a reserved word, the table
name itself when the table is referenced without a usable alias, and
none when the table is not referenced at all.
-/
def get_table_reference (sql : List Char) (table_name : List Char) :
    Option (List Char) :=
  let low := lowerL sql
  match search_opt (table_ref_alias_at table_name) none low with
  | some a => if alias_keywords.contains a then some table_name else some a
  | none =>
  match search_opt (table_ref_alias_bracket_at table_name) none low with
  | some a => if alias_keywords.contains a then some table_name else some a
  | none =>
  match search_opt (table_ref_bare_at table_name) none low with
  | some _ => some table_name
  | none =>
  match search_opt (table_ref_bare_bracket_at table_name) none low with
  | some _ => some table_name
  | none => none

/-- Match of the case-insensitive whole-word WHERE at the current position, returning the matched characters and the remainder. -/
def match_where_at (prev : Option Char) (l : List Char) :
    Option (List Char × List Char) :=
  match l with
  | c1 :: c2 :: c3 :: c4 :: c5 :: rest =>
    if word_boundary prev && (lowerChar c1 == 'w') && (lowerChar c2 == 'h') &&
       (lowerChar c3 == 'e') && (lowerChar c4 == 'r') && (lowerChar c5 == 'e') &&
       boundary_after rest
    then some ([c1, c2, c3, c4, c5], rest)
    else none
  | _ => none

/-- Split the input at the end of the leftmost whole-word WHERE, keeping the keyword in the left part. -/
def find_where_split (prev : Option Char) (acc : List Char) :
    List Char → Option (List Char × List Char)
  | [] => none
  | c :: rest =>
    match match_where_at prev (c :: rest) with
    | some (w, after) => some (acc.reverse ++ w, after)
    | none => find_where_split (some c) (c :: acc) rest

/-- Single-word clause keyword at the current position (case-insensitive, whole word). -/
def kw_word (w : List Char) (l : List Char) : Bool :=
  match strip_ci w l with
  | some r => boundary_after r
  | none => false

/-- Two-word clause keyword separated by whitespace (case-insensitive, whole words). -/
def kw_two (w1 w2 : List Char) (l : List Char) : Bool :=
  match strip_ci w1 l with
  | some r =>
    match strip_ws1 r with
    | some r2 => kw_word w2 r2
    | none => false
  | none => false

/-- Any of the eight clause keywords before which a new WHERE clause must be inserted. -/
def any_keyword_at (prev : Option Char) (l : List Char) : Bool :=
  word_boundary prev &&
  (kw_two ("group".toList) ("by".toList) l || kw_word ("having".toList) l ||
   kw_two ("order".toList) ("by".toList) l || kw_word ("limit".toList) l ||
   kw_word ("offset".toList) l || kw_word ("fetch".toList) l ||
   kw_two ("for".toList) ("xml".toList) l || kw_two ("for".toList) ("json".toList) l)

/--
Embedding of SQLFilterAgent find where insertion point, as a split of
the input at the earliest clause keyword; when no keyword occurs the
split is at the end of the input.
-/
def find_insertion_split (prev : Option Char) (acc : List Char) :
    List Char → List Char × List Char
  | [] => (acc.reverse, [])
  | c :: rest =>
    if any_keyword_at prev (c :: rest) then (acc.reverse, c :: rest)
    else find_insertion_split (some c) (c :: acc) rest

/-- Parenthesize one condition, as the source f-string does. -/
def paren_cond (c : List Char) : List Char := '(' :: (c ++ [')'])

/-- Join the parenthesized conditions with AND, modelling the join on the AND separator. -/
def filter_clause : List (List Char) → List Char
  | [] => []
  | [c] => paren_cond c
  | c :: c2 :: rest => paren_cond c ++ " AND ".toList ++ filter_clause (c2 :: rest)

/-- Body of the injection: splice after an existing WHERE, or insert a new WHERE clause at the computed insertion point. -/
def inject_body (s2 : List Char) (clause : List Char) : List Char :=
  match find_where_split none [] s2 with
  | some (a, b) => a ++ " (".toList ++ clause ++ ") AND ".toList ++ b
  | none =>
    let p := find_insertion_split none [] s2
    p.1 ++ "\nWHERE ".toList ++ clause ++ p.2

/--
Embedding of SQLFilterAgent inject where conditions: strip a trailing
semicolon and whitespace, inject the combined filter clause, and
restore the semicolon when it was present.
-/
def inject_where_conditions (sql : List Char) (conditions : List (List Char)) :
    List Char :=
  if conditions.isEmpty then sql
  else if (pyRstrip sql).getLast? == some ';' then
    inject_body (pyRstrip (pyRstrip sql).dropLast) (filter_clause conditions) ++ [';']
  else
    inject_body (pyRstrip sql) (filter_clause conditions)

/-- Embedding of SQLFilterAgent inject impossible filter. -/
def inject_impossible_filter (sql : List Char) : List Char :=
  inject_where_conditions sql ["1 = 0".toList]

/-- Quote one project id for the NVARCHAR id list. -/
def quote_id (pid : List Char) : List Char := sq :: (pid ++ [sq])

/-- Comma-separated quoted id list, as built at the top of inject project filter. -/
def project_ids_string (ids : List (List Char)) : List Char :=
  List.intercalate [','] (ids.map quote_id)

/-- Ownership predicate for the primary project table. -/
def primary_filter (ref : List Char) (ids : List (List Char)) : List Char :=
  ref ++ ".id IN (".toList ++ project_ids_string ids ++ [')']

/-- Ownership predicate for the zoho deals mirror table, joined through the hubspot id linking column. -/
def mirror_filter (ref : List Char) (ids : List (List Char)) : List Char :=
  ref ++ ".id IN (SELECT hubspot_id FROM project WHERE id IN (".toList ++
    project_ids_string ids ++ "))".toList

/--
Embedding of SQLFilterAgent inject project filter: detect references
to the project and zoho deals tables, build one predicate per
referenced table, and inject them; when neither table is referenced
the input is returned unchanged.
-/
def inject_project_filter (sql : List Char) (project_ids : List (List Char)) :
    List Char :=
  let project_ref := get_table_reference sql ("project".toList)
  let zoho_deals_ref := get_table_reference sql ("zoho_deals".toList)
  match project_ref, zoho_deals_ref with
  | none, none => sql
  | _, _ =>
    inject_where_conditions sql
      ((project_ref.map (fun r => primary_filter r project_ids)).toList ++
       (zoho_deals_ref.map (fun r => mirror_filter r project_ids)).toList)

/-- Authorization result, mirroring the dictionary returned by UserAuthService. -/
structure AuthInfo where
  user_id : Option (List Char)
  is_admin : Bool
  accessible_project_ids : List (List Char)
  error : Option (List Char)

/--
Core filtering decision of SQLFilterAgent apply user filters for an
authorization without an error: admins bypass filtering, a non-admin
with no accessible projects gets the impossible filter, and a
non-admin with accessible projects gets the project filter.
-/
def apply_filter (sql : List Char) (auth : AuthInfo) : List Char :=
  if auth.is_admin then sql
  else if auth.accessible_project_ids.isEmpty then inject_impossible_filter sql
  else inject_project_filter sql auth.accessible_project_ids

/-- Fields of the graph state read or written by the filtering step. -/
structure FilterState where
  user_email : Option (List Char)
  generated_sql : Option (List Char)
  validation_message : Option (List Char)
  is_valid : Option Bool
  error : Option (List Char)
  user_id : Option (List Char)
  is_admin : Option Bool
  accessible_project_ids : Option (List (List Char))
  original_sql : Option (List Char)
  messages : List (List Char)

/-- Message set by the filtering step when the user identity is absent. -/
def email_required_message : List Char :=
  "User email is required for access control".toList

/-- Non-admin branch bookkeeping of apply user filters after a successful authorization. -/
def proceed_filters (auth : AuthInfo) (gsql : List Char) (s : FilterState) :
    FilterState :=
  let s1 : FilterState :=
    { s with user_id := auth.user_id, is_admin := some auth.is_admin,
             accessible_project_ids := some auth.accessible_project_ids,
             original_sql := some gsql }
  if auth.is_admin then
    { s1 with messages :=
        s1.messages ++ ["Admin user - no project filtering applied".toList] }
  else
    let s2 : FilterState :=
      if auth.accessible_project_ids.isEmpty then
        { s1 with messages := s1.messages ++
            ["Warning: You have no project access. Query will return empty results.".toList] }
      else s1
    let filtered : List Char :=
      if auth.accessible_project_ids.isEmpty then inject_impossible_filter gsql
      else inject_project_filter gsql auth.accessible_project_ids
    { s2 with generated_sql := some filtered,
              messages := s2.messages ++
                ["Project access filter applied (".toList ++
                 (Nat.repr auth.accessible_project_ids.length).toList ++
                 " projects accessible)".toList] }

/--
Embedding of SQLFilterAgent apply user filters: an absent or empty
user email marks the request invalid; an absent or empty generated SQL
skips the step; an authorization error marks the request invalid;
otherwise the filtering decision of apply filter is applied to the
generated SQL. The authorization service is passed as a collaborator.
-/
def apply_user_filters (authorize : List Char → AuthInfo) (s : FilterState) :
    FilterState :=
  match s.user_email with
  | none =>
    { s with validation_message := some email_required_message,
             is_valid := some false }
  | some email =>
    if email.isEmpty then
      { s with validation_message := some email_required_message,
               is_valid := some false }
    else
      match s.generated_sql with
      | none => s
      | some gsql =>
        if gsql.isEmpty then s
        else
          let auth := authorize email
          match auth.error with
          | some err =>
            if err.isEmpty then proceed_filters auth gsql s
            else
              { s with validation_message :=
                         some ("Authorization failed: ".toList ++ err),
                       is_valid := some false, error := some err }
          | none => proceed_filters auth gsql s

/-- Admin group identifier checked as a substring of the free-text groups field. -/
def admin_group_uuid : List Char :=
  "37c57028-06a0-4cfa-b285-55c5b6a0bfec".toList

/-- Embedding of UserAuthService is admin: false for an absent or empty groups field, otherwise a substring check. -/
def is_admin_groups (groups : Option (List Char)) : Bool :=
  match groups with
  | none => false
  | some g => if g.isEmpty then false else containsSub admin_group_uuid g

/-- User record fields consumed by the authorization resolver. -/
structure UserRecord where
  id : Option (List Char)
  groups : Option (List Char)

/-- Python str applied to a possibly absent id, as the source does before querying. -/
def str_of_opt : Option (List Char) → List Char
  | some s => s
  | none => "None".toList

/--
Embedding of UserAuthService get accessible project ids: the two
database lookups and their union are performed by the external record
store, modelled by the fetch collaborator; any raised exception is
caught and yields the empty list.
-/
def get_accessible_project_ids
    (fetch_ids : List Char → Except (List Char) (List (List Char)))
    (user_id : List Char) : List (List Char) :=
  match fetch_ids user_id with
  | Except.ok ids => ids
  | Except.error _ => []

/--
Embedding of UserAuthService get user authorization: an unknown
identity yields the error result, an admin gets the empty sentinel id
set, and a non-admin gets the looked-up accessible ids. The user
lookup and the record store are passed as collaborators.
-/
def get_user_authorization
    (find_user : List Char → Option UserRecord)
    (fetch_ids : List Char → Except (List Char) (List (List Char)))
    (email : List Char) : AuthInfo :=
  match find_user email with
  | none =>
    { user_id := none, is_admin := false, accessible_project_ids := [],
      error := some ("User not found".toList) }
  | some u =>
    let adm := is_admin_groups u.groups
    { user_id := u.id, is_admin := adm,
      accessible_project_ids :=
        if adm then [] else get_accessible_project_ids fetch_ids (str_of_opt u.id),
      error := none }

/-- Column metadata as held in the cached schema dictionary. -/
structure ColumnInfo where
  column_name : List Char
  data_type : List Char
  is_nullable : List Char

/-- Table metadata: the ordered column list. -/
structure TableInfo where
  columns : List ColumnInfo

/-- Case-insensitive lookup view over the table names, modelling the lowered-name dictionary; a later duplicate key overrides an earlier one. -/
def lookup_lower (tables : List (List Char)) (key : List Char) :
    Option (List Char) :=
  tables.reverse.find? (fun t => lowerL t == key)

/--
Embedding of the per-name matching block of SchemaAgent get relevant
schema: exact case-insensitive match first, then the name with a
trailing s stripped, then the name with an s appended.
-/
def resolve_table (tables : List (List Char)) (name : List Char) :
    Option (List Char) :=
  let k := pyStrip (lowerL name)
  match lookup_lower tables k with
  | some t => some t
  | none =>
    match (if k.getLast? == some 's' then lookup_lower tables k.dropLast else none) with
    | some t => some t
    | none => lookup_lower tables (k ++ ['s'])

/-- Names of the tables of a schema snapshot, in dictionary order. -/
def table_names (schema : List (List Char × TableInfo)) : List (List Char) :=
  schema.map (fun p => p.1)

/-- Matches of the NLU-suggested tables against the schema, misses dropped silently. -/
def matched_tables (schema : List (List Char × TableInfo))
    (tables_from_nlu : List (List Char)) : List (List Char) :=
  tables_from_nlu.filterMap (resolve_table (table_names schema))

/-- Characters of the tokenizer regex class: lower-case letters, digits and underscore. -/
def is_token_char (c : Char) : Bool :=
  (decide (97 ≤ c.toNat) && decide (c.toNat ≤ 122)) ||
  (decide (48 ≤ c.toNat) && decide (c.toNat ≤ 57)) ||
  c == '_'

/-- Accumulator pass splitting the input into maximal runs of token characters. -/
def runs_of_aux (cur : List Char) : List Char → List (List Char)
  | [] => if cur.isEmpty then [] else [cur.reverse]
  | c :: rest =>
    if is_token_char c then runs_of_aux (c :: cur) rest
    else if cur.isEmpty then runs_of_aux [] rest
    else cur.reverse :: runs_of_aux [] rest

/-- All maximal token runs of the input, modelling findall of the token regex. -/
def runs_of (l : List Char) : List (List Char) := runs_of_aux [] l

/-- Stopword set removed by the query tokenizer. -/
def stopwords : List (List Char) :=
  ["show", "list", "get", "find", "all", "the", "me", "for", "with", "in",
   "of", "and", "top"].map String.toList

/-- Embedding of the module-level tokenize helper of the schema agent. -/
def tokenize_query (text : List Char) : List (List Char) :=
  (runs_of (lowerL text)).filter (fun t => !(stopwords.contains t))

/-- Tokens of a table name and of all its column names. -/
def table_tokens (name : List Char) (info : TableInfo) : List (List Char) :=
  runs_of (lowerL name) ++
    (info.columns.map (fun c => runs_of (lowerL c.column_name))).flatten

/-- Token-overlap fallback: every table whose name or column tokens intersect the query tokens. -/
def token_based_tables (schema : List (List Char × TableInfo))
    (query : List Char) : List (List Char) :=
  let tokens := tokenize_query query
  schema.filterMap
    (fun p => if tokens.any (fun t => (table_tokens p.1 p.2).contains t)
              then some p.1 else none)

/-- Lexicographic comparison of strings by code point, modelling the Python sort order. -/
def lex_le : List Char → List Char → Bool
  | [], _ => true
  | _ :: _, [] => false
  | a :: as2, b :: bs => if a == b then lex_le as2 bs else decide (a < b)

/-- Insertion into a sorted list of strings. -/
def insert_sorted (x : List Char) : List (List Char) → List (List Char)
  | [] => [x]
  | y :: rest => if lex_le x y then x :: y :: rest else y :: insert_sorted x rest

/-- Ascending sort of a list of strings. -/
def sort_tables (l : List (List Char)) : List (List Char) :=
  l.foldr insert_sorted []

/-- Nullability text of one column line of the schema context. -/
def nullable_text (c : ColumnInfo) : List Char :=
  if c.is_nullable == "YES".toList then "NULL".toList else "NOT NULL".toList

/-- One column line of the schema context. -/
def column_line (c : ColumnInfo) : List Char :=
  "  - ".toList ++ c.column_name ++ " (".toList ++ c.data_type ++
    ") ".toList ++ nullable_text c

/-- Context lines contributed by one relevant table; a name missing from the schema contributes nothing. -/
def table_parts (schema : List (List Char × TableInfo)) (name : List Char) :
    List (List Char) :=
  match schema.find? (fun p => p.1 == name) with
  | none => []
  | some p =>
    ("\n### Table: ".toList ++ name) :: "Columns:".toList ::
      p.2.columns.map column_line

/-- Schema context text: empty for an empty table list, otherwise the newline join of all parts. -/
def build_schema_context (schema : List (List Char × TableInfo))
    (relevant : List (List Char)) : List Char :=
  if relevant.isEmpty then []
  else List.intercalate ['\n'] ((relevant.map (table_parts schema)).flatten)

/--
Embedding of SchemaAgent get relevant schema: union of the

NLU-derived matches with the token-overlap fallback, sorted and
deduplicated, together with the schema context text built for the
resulting table list.
-/
def get_relevant_schema (schema : List (List Char × TableInfo))
    (tables_from_nlu : List (List Char)) (user_query : List Char) :
    List (List Char) × List Char :=
  let matched := matched_tables schema tables_from_nlu
  let token_based := token_based_tables schema user_query
  let relevant := sort_tables ((matched ++ token_based).dedup)
  (relevant, build_schema_context schema relevant)

/-- Outcome fields of the SQL-generation step; a none field was left untouched by the step. -/
structure GenOutcome where
  generated_sql : Option (List Char)
  is_valid : Option Bool
  requires_human_approval : Option Bool
  validation_message : Option (List Char)
  messages : List (List Char)
  step : List Char

/-- Accumulator pass locating the first occurrence of a separator. -/
def split_once_aux (sep : List Char) (acc : List Char) :
    List Char → Option (List Char × List Char)
  | [] => none
  | c :: rest =>
    if sep.isPrefixOf (c :: rest) then
      some (acc.reverse, (c :: rest).drop sep.length)
    else split_once_aux sep (c :: acc) rest

/-- Split at the first occurrence of a separator, when present. -/
def split_once (sep l : List Char) : Option (List Char × List Char) :=
  split_once_aux sep [] l

/-- Markdown code-fence extraction applied to the model completion. -/
def extract_sql_block (s : List Char) : List Char :=
  match split_once ("```sql".toList) s with
  | some (_, rest) =>
    pyStrip (match split_once ("```".toList) rest with
             | some (a, _) => a
             | none => rest)
  | none =>
    match split_once ("```".toList) s with
    | some (_, rest) =>
      pyStrip (match split_once ("```".toList) rest with
               | some (a, _) => a
               | none => rest)
    | none => s

/-- Abstention message of the SQL-generation guard for an empty relevant-table list. -/
def no_schema_message : List Char :=
  "No correct schema identified for the question. Cannot generate SQL without risking hallucination.".toList

/--
Embedding of Text2SQLAgent generate sql: with no relevant tables the
step abstains and marks the request invalid; a NO SCHEMA MATCH
sentinel in the completion also abstains; otherwise the completion is
stripped, extracted from code fences and sanitized. The model
completion and the sanitizer (defined in a module outside the core)
are passed as collaborators.
-/
def generate_sql (relevant_tables : List (List Char))
    (llm_response : List Char) (sanitize : List Char → List Char)
    (msgs : List (List Char)) : GenOutcome :=
  if relevant_tables.isEmpty then
    { generated_sql := none, is_valid := some false,
      requires_human_approval := some false,
      validation_message := some no_schema_message,
      messages := msgs ++ [no_schema_message],
      step := "validation_failed".toList }
  else
    let sql_query := pyStrip llm_response
    if containsSub ("NO_SCHEMA_MATCH".toList) sql_query then
      { generated_sql := none, is_valid := some false,
        requires_human_approval := none,
        validation_message :=
          some ("No correct schema identified to answer the question.".toList),
        messages := msgs, step := "validation_failed".toList }
    else
      { generated_sql := some (sanitize (extract_sql_block sql_query)),
        is_valid := none, requires_human_approval := none,
        validation_message := none, messages := msgs,
        step := "sql_generated".toList }

/-! Helper lemmas about the embedded operations. -/

theorem containsSub_nil (l : List Char) : containsSub [] l = true := by
  cases l <;> simp [containsSub, List.isPrefixOf]

theorem isPrefixOf_append_self (n y : List Char) :
    n.isPrefixOf (n ++ y) = true := by
  induction n with
  | nil => simp [List.isPrefixOf]
  | cons a as ih => simp [List.isPrefixOf, ih]

theorem containsSub_self (n y : List Char) : containsSub n (n ++ y) = true := by
  cases n with
  | nil => exact containsSub_nil y
  | cons m ms =>
    simp only [List.cons_append, containsSub, Bool.or_eq_true]
    exact Or.inl (by simp [isPrefixOf_append_self (m :: ms) y])

theorem containsSub_mid (a n y : List Char) :
    containsSub n (a ++ (n ++ y)) = true := by
  induction a with
  | nil => simpa using containsSub_self n y
  | cons c cs ih => simp [containsSub, ih]

theorem match_where_at_append (prev : Option Char) (l w after : List Char)
    (h : match_where_at prev l = some (w, after)) : w ++ after = l := by
  unfold match_where_at at h
  split at h
  · split at h
    · simp only [Option.some.injEq, Prod.mk.injEq] at h
      obtain ⟨hw, ha⟩ := h
      subst hw; subst ha
      simp
    · exact absurd h (by simp)
  · exact absurd h (by simp)

theorem find_where_split_append (l : List Char) :
    ∀ (prev : Option Char) (acc a b : List Char),
      find_where_split prev acc l = some (a, b) → a ++ b = acc.reverse ++ l := by
  induction l with
  | nil => intro prev acc a b h; simp [find_where_split] at h
  | cons c rest ih =>
    intro prev acc a b h
    simp only [find_where_split] at h
    cases hm : match_where_at prev (c :: rest) with
    | some p =>
      obtain ⟨w, after⟩ := p
      rw [hm] at h
      simp only [Option.some.injEq, Prod.mk.injEq] at h
      obtain ⟨ha, hb⟩ := h
      subst ha; subst hb
      have hw := match_where_at_append prev (c :: rest) w after hm
      rw [List.append_assoc, hw]
    | none =>
      rw [hm] at h
      have := ih (some c) (c :: acc) a b h
      simpa [List.append_assoc] using this

theorem find_insertion_split_append (l : List Char) :
    ∀ (prev : Option Char) (acc : List Char),
      (find_insertion_split prev acc l).1 ++ (find_insertion_split prev acc l).2
        = acc.reverse ++ l := by
  induction l with
  | nil => intro prev acc; simp [find_insertion_split]
  | cons c rest ih =>
    intro prev acc
    simp only [find_insertion_split]
    split
    · simp
    · have := ih (some c) (c :: acc)
      simpa [List.append_assoc] using this

theorem filter_clause_getLast (conds : List (List Char)) (hc : conds ≠ []) :
    (filter_clause conds).getLast? = some ')' := by
  induction conds with
  | nil => exact absurd rfl hc
  | cons c rest ih =>
    cases rest with
    | nil =>
      show (paren_cond c).getLast? = some ')'
      show (('(' :: c) ++ [')']).getLast? = some ')'
      exact List.getLast?_concat _
    | cons c2 rest2 =>
      have h2 := ih (by simp)
      have hne : filter_clause (c2 :: rest2) ≠ [] := by
        intro e; rw [e] at h2; simp at h2
      show (paren_cond c ++ " AND ".toList ++ filter_clause (c2 :: rest2)).getLast?
            = some ')'
      rw [List.getLast?_append_of_ne_nil _ hne, h2]

theorem chain_last (x y : List Char) (hy : y ≠ []) :
    (x ++ y).getLast? = y.getLast? :=
  List.getLast?_append_of_ne_nil x hy

theorem app_ne_nil_left (x y : List Char) (hx : x ≠ []) : x ++ y ≠ [] := by
  cases x with
  | nil => exact absurd rfl hx
  | cons c cs => simp

theorem app_ne_nil_right (x y : List Char) (hy : y ≠ []) : x ++ y ≠ [] := by
  cases y with
  | nil => exact absurd rfl hy
  | cons c cs => cases x <;> simp

theorem inject_body_getLast (s2 clause : List Char)
    (hc : clause.getLast? = some ')')
    (hs : s2.getLast? ≠ some ';') :
    (inject_body s2 clause).getLast? ≠ some ';' := by
  have hclne : clause ≠ [] := by intro e; rw [e] at hc; simp at hc
  unfold inject_body
  cases hsp : find_where_split none [] s2 with
  | some p =>
    obtain ⟨a, b⟩ := p
    have hab : a ++ b = s2 := by
      simpa using find_where_split_append s2 none [] a b hsp
    show (a ++ " (".toList ++ clause ++ ") AND ".toList ++ b).getLast? ≠ some ';'
    cases b with
    | nil =>
      rw [List.append_nil]
      have w3 : (") AND ".toList : List Char) ≠ [] := by decide
      rw [chain_last _ _ w3]
      decide
    | cons x xs =>
      have w4 : (x :: xs : List Char) ≠ [] := by simp
      rw [chain_last _ _ w4]
      rw [← hab] at hs
      rwa [chain_last _ _ w4] at hs
  | none =>
    have hab := find_insertion_split_append s2 none []
    simp only [List.reverse_nil, List.nil_append] at hab
    cases hq : find_insertion_split none [] s2 with
    | mk f1 f2 =>
    rw [hq] at hab
    simp only [] at hab
    show (f1 ++ "\nWHERE ".toList ++ clause ++ f2).getLast? ≠ some ';'
    cases f2 with
    | nil =>
      rw [List.append_nil]
      rw [chain_last _ _ hclne, hc]
      simp
    | cons x xs =>
      have w3 : (x :: xs : List Char) ≠ [] := by simp
      rw [chain_last _ _ w3]
      rw [← hab] at hs
      rwa [chain_last _ _ w3] at hs

theorem containsSub_inject_body (s2 c y : List Char) :
    containsSub c (inject_body s2 (paren_cond c) ++ y) = true := by
  unfold inject_body
  cases hsp : find_where_split none [] s2 with
  | some p =>
    obtain ⟨a, b⟩ := p
    show containsSub c ((a ++ " (".toList ++ paren_cond c ++ ") AND ".toList ++ b) ++ y) = true
    have he : (a ++ " (".toList ++ paren_cond c ++ ") AND ".toList ++ b) ++ y
        = (a ++ " (".toList ++ ['(']) ++ (c ++ ([')'] ++ ") AND ".toList ++ b ++ y)) := by
      simp [paren_cond, List.append_assoc]
    rw [he]
    exact containsSub_mid _ _ _
  | none =>
    cases hq : find_insertion_split none [] s2 with
    | mk f1 f2 =>
    show containsSub c ((f1 ++ "\nWHERE ".toList ++ paren_cond c ++ f2) ++ y) = true
    have he : (f1 ++ "\nWHERE ".toList ++ paren_cond c ++ f2) ++ y
        = (f1 ++ "\nWHERE ".toList ++ ['(']) ++ (c ++ ([')'] ++ f2 ++ y)) := by
      simp [paren_cond, List.append_assoc]
    rw [he]
    exact containsSub_mid _ _ _

theorem containsSub_inject_single (sql c : List Char) :
    containsSub c (inject_where_conditions sql [c]) = true := by
  unfold inject_where_conditions
  have h1 : ([c] : List (List Char)).isEmpty = false := rfl
  rw [h1]
  show containsSub c
      (if ((pyRstrip sql).getLast? == some ';') = true then
        inject_body (pyRstrip (pyRstrip sql).dropLast) (filter_clause [c]) ++ [';']
      else inject_body (pyRstrip sql) (filter_clause [c])) = true
  split
  · exact containsSub_inject_body _ c [';']
  · have := containsSub_inject_body (pyRstrip sql) c []
    rwa [List.append_nil] at this

/-! Claim theorems. -/

/--
Claim C3: for every input SQL string, when the authorization result is
non-admin with no error and an empty accessible-id set, the filtering
decision returns SQL containing the literal unsatisfiable clause 1 = 0
conjoined into its WHERE clause.
-/
theorem c3_fail_closed (sql : List Char) (auth : AuthInfo)
    (ha : auth.is_admin = false) (_he : auth.error = none)
    (hi : auth.accessible_project_ids = []) :
    containsSub ("1 = 0".toList) (apply_filter sql auth) = true := by
  unfold apply_filter
  rw [ha, hi]
  show containsSub ("1 = 0".toList) (inject_impossible_filter sql) = true
  exact containsSub_inject_single sql ("1 = 0".toList)

/-- Witness for C3 at a concrete query and authorization. -/
theorem c3_fail_closed_witness :
    containsSub ("1 = 0".toList)
      (apply_filter ("SELECT name FROM project".toList)
        { user_id := some ("u1".toList), is_admin := false,
          accessible_project_ids := [], error := none }) = true :=
  c3_fail_closed ("SELECT name FROM project".toList) _ rfl rfl rfl

/--
Claim C4: for every input SQL string, an admin authorization with no
error leaves the SQL unchanged, byte for byte.
-/
theorem c4_admin_bypass (sql : List Char) (auth : AuthInfo)
    (ha : auth.is_admin = true) (_he : auth.error = none) :
    apply_filter sql auth = sql := by
  unfold apply_filter
  rw [ha]
  simp

/-- Witness for C4 at a concrete query and authorization. -/
theorem c4_admin_bypass_witness :
    apply_filter ("SELECT * FROM project; DROP x".toList)
      { user_id := some ("u1".toList), is_admin := true,
        accessible_project_ids := [], error := none }
      = "SELECT * FROM project; DROP x".toList :=
  c4_admin_bypass _ _ rfl rfl

/--
Claim C9: for every input SQL ending with a single trailing semicolon,
possibly followed by whitespace, the output of filter injection ends
with exactly one trailing semicolon; for input without a trailing
semicolon the output has none. The single-trailing-semicolon
hypothesis and conclusion are phrased through the stripping functions
of the source: the stripped input ends in a semicolon and stripping
that semicolon leaves no further trailing semicolon.
-/
theorem c9_semicolon_round_trip (sql : List Char) (conds : List (List Char))
    (hc : conds ≠ []) :
    ((pyRstrip sql).getLast? = some ';' →
      (pyRstrip (pyRstrip sql).dropLast).getLast? ≠ some ';' →
      (inject_where_conditions sql conds).getLast? = some ';' ∧
        ((inject_where_conditions sql conds).dropLast).getLast? ≠ some ';') ∧
    ((pyRstrip sql).getLast? ≠ some ';' →
      (inject_where_conditions sql conds).getLast? ≠ some ';') := by
  have hce : conds.isEmpty = false := by
    cases conds with
    | nil => exact absurd rfl hc
    | cons c cs => rfl
  have hcl : (filter_clause conds).getLast? = some ')' := filter_clause_getLast conds hc
  constructor
  · intro h1 h2
    unfold inject_where_conditions
    rw [hce]
    have hb : ((pyRstrip sql).getLast? == some ';') = true := by
      rw [h1]; rfl
    rw [hb]
    show (inject_body (pyRstrip (pyRstrip sql).dropLast) (filter_clause conds) ++ [';']).getLast? = some ';' ∧
      ((inject_body (pyRstrip (pyRstrip sql).dropLast) (filter_clause conds) ++ [';']).dropLast).getLast? ≠ some ';'
    constructor
    · exact List.getLast?_concat _
    · rw [List.dropLast_concat]
      exact inject_body_getLast _ _ hcl h2
  · intro h1
    unfold inject_where_conditions
    rw [hce]
    have hb : ((pyRstrip sql).getLast? == some ';') = false := by
      cases hg : (pyRstrip sql).getLast? with
      | none => rfl
      | some ch =>
        rw [hg] at h1
        have : ch ≠ ';' := fun e => h1 (by rw [e])
        simpa using this
    rw [hb]
    show (inject_body (pyRstrip sql) (filter_clause conds)).getLast? ≠ some ';'
    exact inject_body_getLast _ _ hcl h1

/-- Witness for C9: both branches applied at concrete inputs. -/
theorem c9_semicolon_round_trip_witness :
    ((inject_where_conditions ("SELECT * FROM client; ".toList) ["1 = 0".toList]).getLast?
        = some ';' ∧
      ((inject_where_conditions ("SELECT * FROM client; ".toList) ["1 = 0".toList]).dropLast).getLast?
        ≠ some ';') ∧
    (inject_where_conditions ("SELECT * FROM client".toList) ["1 = 0".toList]).getLast?
      ≠ some ';' :=
  ⟨(c9_semicolon_round_trip ("SELECT * FROM client; ".toList) ["1 = 0".toList]
      (by simp)).1 (by decide) (by decide),
   (c9_semicolon_round_trip ("SELECT * FROM client".toList) ["1 = 0".toList]
      (by simp)).2 (by decide)⟩

/-! Concrete inputs for the functional-correctness claims. -/

/-- Authorization of a non-admin user whose accessible ids are exactly A and B. -/
def auth_ab : AuthInfo :=
  { user_id := some ("u1".toList), is_admin := false,
    accessible_project_ids := ["A".toList, "B".toList], error := none }

/-- First input of the WHERE-insertion property. -/
def sql_p6_one : List Char := "SELECT * FROM project p".toList

/-- Second input of the WHERE-insertion property. -/
def sql_p6_two : List Char :=
  "SELECT * FROM project p WHERE p.status=".toList ++ [sq] ++ "Active".toList ++ [sq]

/-- Output the specification states for the first input. -/
def expected_p6_one : List Char :=
  "SELECT * FROM project p\nWHERE (p.id IN (".toList ++
    [sq, 'A', sq, ',', sq, 'B', sq] ++ "))".toList

/-- Output the specification states for the second input, with a singly parenthesized injected clause. -/
def claimed_p6_two : List Char :=
  "SELECT * FROM project p WHERE (p.id IN (".toList ++
    [sq, 'A', sq, ',', sq, 'B', sq] ++ ")) AND  p.status=".toList ++
    [sq] ++ "Active".toList ++ [sq]

/-- Output the code produces for the second input: the injected clause carries an extra pair of parentheses. -/
def expected_p6_two : List Char :=
  "SELECT * FROM project p WHERE ((p.id IN (".toList ++
    [sq, 'A', sq, ',', sq, 'B', sq] ++ "))) AND  p.status=".toList ++
    [sq] ++ "Active".toList ++ [sq]

/--
Claim C1, counterexample: on the second stated input the filtering
step does not produce the exact clause text the specification states;
the injected clause is wrapped in one more pair of parentheses.
-/
theorem c1_counterexample : apply_filter sql_p6_two auth_ab ≠ claimed_p6_two := by
  decide

/--
Claim C1, amended: for the first input the output matches the
specification exactly; for the second input the injected clause
immediately follows the WHERE token and precedes the original
predicate, but its text is doubly parenthesized.
-/
theorem c1_where_insertion :
    apply_filter sql_p6_one auth_ab = expected_p6_one ∧
    apply_filter sql_p6_two auth_ab = expected_p6_two :=
  ⟨by decide, by decide⟩

/-- Authorization of a non-admin user with an empty accessible-id set. -/
def auth_no_ids : AuthInfo :=
  { user_id := some ("u1".toList), is_admin := false,
    accessible_project_ids := [], error := none }

/-- Query referencing neither protected table. -/
def sql_client_only : List Char := "SELECT * FROM client".toList

/--
Claim C2, counterexample: a non-admin authorization with an empty
accessible-id set rewrites even a query that references neither
protected table, so the result is not the exact input string.
-/
theorem c2_counterexample :
    apply_filter sql_client_only auth_no_ids ≠ sql_client_only := by
  decide

/--
Claim C2, amended: for every input SQL referencing neither the project
table nor the zoho deals table, the filtering decision returns the
exact input string for an admin authorization and for a non-admin
authorization with a non-empty accessible-id set; a non-admin with an
empty set instead receives the impossible filter regardless of the
referenced tables.
-/
theorem c2_noop_on_unprotected (sql : List Char) (auth : AuthInfo)
    (hp : get_table_reference sql ("project".toList) = none)
    (hz : get_table_reference sql ("zoho_deals".toList) = none)
    (h : auth.is_admin = true ∨ auth.accessible_project_ids ≠ []) :
    apply_filter sql auth = sql := by
  unfold apply_filter
  cases hadm : auth.is_admin with
  | true => simp
  | false =>
    rcases h with h1 | h2
    · rw [hadm] at h1; cases h1
    · have hne : auth.accessible_project_ids.isEmpty = false := by
        cases hi : auth.accessible_project_ids with
        | nil => exact absurd hi h2
        | cons x xs => rfl
      rw [hne]
      show inject_project_filter sql auth.accessible_project_ids = sql
      unfold inject_project_filter
      rw [hp, hz]

/-- Witness for C2 at a concrete unprotected query and a non-admin authorization. -/
theorem c2_noop_on_unprotected_witness :
    apply_filter ("SELECT * FROM contacts".toList)
      { user_id := some ("u1".toList), is_admin := false,
        accessible_project_ids := ["A".toList], error := none }
      = "SELECT * FROM contacts".toList :=
  c2_noop_on_unprotected ("SELECT * FROM contacts".toList) _
    (by decide) (by decide) (Or.inr (by simp))

/-- Query referencing the project table with alias p and the zoho deals table with alias z. -/
def sql_both_tables : List Char :=
  "SELECT * FROM project p JOIN zoho_deals z ON p.hubspot_id = z.id".toList

/-- Output of the filtering decision on the two-table query: both predicates, ANDed, in a new WHERE clause. -/
def expected_both_tables : List Char :=
  "SELECT * FROM project p JOIN zoho_deals z ON p.hubspot_id = z.id\nWHERE (p.id IN (".toList ++
    [sq, 'A', sq, ',', sq, 'B', sq] ++
    ")) AND (z.id IN (SELECT hubspot_id FROM project WHERE id IN (".toList ++
    [sq, 'A', sq, ',', sq, 'B', sq] ++ ")))".toList

/--
Claim C5: for a non-admin user with a non-empty accessible-id set the
injected filter consists of the primary predicate for the project
table when present and the subselect predicate for the zoho deals
mirror table when present, each table checked independently and all
produced predicates combined with AND into one filter clause; the
concrete conjunct exercises both predicates end to end.
-/
theorem c5_predicate_construction (sql : List Char) (ids : List (List Char))
    (uid : Option (List Char)) (hi : ids ≠ []) :
    apply_filter sql
        { user_id := uid, is_admin := false,
          accessible_project_ids := ids, error := none } =
      inject_where_conditions sql
        (((get_table_reference sql ("project".toList)).map
            (fun r => primary_filter r ids)).toList ++
         ((get_table_reference sql ("zoho_deals".toList)).map
            (fun r => mirror_filter r ids)).toList) ∧
    (∀ c1 c2 : List Char,
      filter_clause [c1, c2] = paren_cond c1 ++ " AND ".toList ++ paren_cond c2) ∧
    apply_filter sql_both_tables auth_ab = expected_both_tables := by
  refine ⟨?_, fun c1 c2 => rfl, by decide⟩
  show (if ids.isEmpty = true then inject_impossible_filter sql
        else inject_project_filter sql ids) = _
  have hne : ids.isEmpty = false := by
    cases ids with
    | nil => exact absurd rfl hi
    | cons x xs => rfl
  rw [hne]
  show inject_project_filter sql ids = _
  unfold inject_project_filter
  cases hp : get_table_reference sql ("project".toList) with
  | none =>
    cases hz : get_table_reference sql ("zoho_deals".toList) with
    | none =>
      show sql = inject_where_conditions sql ([] ++ [])
      rfl
    | some rz => rfl
  | some rp =>
    cases hz : get_table_reference sql ("zoho_deals".toList) with
    | none => rfl
    | some rz => rfl

/-- Witness for C5 at the concrete two-table query. -/
theorem c5_predicate_construction_witness :
    apply_filter sql_both_tables
        { user_id := some ("u1".toList), is_admin := false,
          accessible_project_ids := ["A".toList, "B".toList], error := none } =
      inject_where_conditions sql_both_tables
        (((get_table_reference sql_both_tables ("project".toList)).map
            (fun r => primary_filter r ["A".toList, "B".toList])).toList ++
         ((get_table_reference sql_both_tables ("zoho_deals".toList)).map
            (fun r => mirror_filter r ["A".toList, "B".toList])).toList) :=
  (c5_predicate_construction sql_both_tables ["A".toList, "B".toList]
    (some ("u1".toList)) (by simp)).1

/--
Claim C6: table-name resolution tries exact case-insensitive match,
then the name with a trailing s stripped, then the name with an s
appended, first match winning; in particular the two stated concrete
directions hold, and the two priority orderings are exercised on
schemas where a later rule would give a different answer.
-/
theorem c6_resolution_priority :
    (∀ (tables : List (List Char)) (name t : List Char),
        lookup_lower tables (pyStrip (lowerL name)) = some t →
        resolve_table tables name = some t) ∧
    resolve_table ["client".toList] ("clients".toList) = some ("client".toList) ∧
    resolve_table ["clients".toList] ("client".toList) = some ("clients".toList) ∧
    resolve_table ["client".toList, "clients".toList] ("clients".toList)
      = some ("clients".toList) ∧
    resolve_table ["client".toList, "clientss".toList] ("clients".toList)
      = some ("client".toList) := by
  refine ⟨?_, by decide, by decide, by decide, by decide⟩
  intro tables name t h
  unfold resolve_table
  simp only [h]

/-- Witness for C6: the exact-match conjunct applied at a concrete schema and name. -/
theorem c6_resolution_priority_witness :
    resolve_table ["project".toList] ("Project".toList) = some ("project".toList) :=
  c6_resolution_priority.1 ["project".toList] ("Project".toList)
    ("project".toList) (by decide)

/--
Claim C7: when the union of the NLU-derived matches and the
token-overlap matches is empty, the resolver returns an empty table
list and an empty schema-context text, and the SQL-generation step
then abstains: no SQL is produced and the request is marked invalid
with the abstention message.
-/
theorem c7_empty_union_abstains (schema : List (List Char × TableInfo))
    (nlu : List (List Char)) (query : List Char)
    (hm : matched_tables schema nlu = [])
    (ht : token_based_tables schema query = []) :
    (get_relevant_schema schema nlu query).1 = [] ∧
    (get_relevant_schema schema nlu query).2 = [] ∧
    ∀ (llm : List Char) (sanitize : List Char → List Char)
      (msgs : List (List Char)),
      (generate_sql (get_relevant_schema schema nlu query).1 llm sanitize msgs).generated_sql
          = none ∧
      (generate_sql (get_relevant_schema schema nlu query).1 llm sanitize msgs).is_valid
          = some false ∧
      (generate_sql (get_relevant_schema schema nlu query).1 llm sanitize msgs).validation_message
          = some no_schema_message := by
  have h1 : (get_relevant_schema schema nlu query).1 = [] := by
    unfold get_relevant_schema
    simp [hm, ht, sort_tables]
  refine ⟨h1, ?_, ?_⟩
  · have h2 : (get_relevant_schema schema nlu query).2
        = build_schema_context schema (get_relevant_schema schema nlu query).1 := rfl
    rw [h2, h1]
    rfl
  · intro llm sanitize msgs
    rw [h1]
    exact ⟨rfl, rfl, rfl⟩

/-- Witness for C7 at the empty schema and empty suggestion list. -/
theorem c7_empty_union_abstains_witness :
    (generate_sql (get_relevant_schema [] [] []).1 ("SELECT 1".toList) id []).generated_sql
      = none :=
  ((c7_empty_union_abstains [] [] [] rfl rfl).2.2 ("SELECT 1".toList) id []).1

/-- Unknown identities produce exactly the error authorization record. -/
theorem user_not_found_error
    (find_user : List Char → Option UserRecord)
    (fetch_ids : List Char → Except (List Char) (List (List Char)))
    (email : List Char) (h : find_user email = none) :
    get_user_authorization find_user fetch_ids email =
      { user_id := none, is_admin := false, accessible_project_ids := [],
        error := some ("User not found".toList) } := by
  unfold get_user_authorization
  rw [h]

/--
Claim C8: an identity that does not resolve to a known user yields the
error User not found and the filtering step then refuses the request;
for a non-admin user a failing accessible-record lookup yields an
empty accessible-id set, never an unrestricted result.
-/
theorem c8_authorization_failure_semantics :
    (∀ (find_user : List Char → Option UserRecord)
       (fetch_ids : List Char → Except (List Char) (List (List Char)))
       (email : List Char), find_user email = none →
         (get_user_authorization find_user fetch_ids email).error
           = some ("User not found".toList)) ∧
    (∀ (find_user : List Char → Option UserRecord)
       (fetch_ids : List Char → Except (List Char) (List (List Char)))
       (email : List Char) (u : UserRecord) (e : List Char),
       find_user email = some u →
       is_admin_groups u.groups = false →
       fetch_ids (str_of_opt u.id) = Except.error e →
       (get_user_authorization find_user fetch_ids email).accessible_project_ids = []) ∧
    (∀ (find_user : List Char → Option UserRecord)
       (fetch_ids : List Char → Except (List Char) (List (List Char)))
       (s : FilterState) (email gsql : List Char),
       s.user_email = some email → email ≠ [] →
       s.generated_sql = some gsql → gsql ≠ [] →
       find_user email = none →
       (apply_user_filters (get_user_authorization find_user fetch_ids) s).is_valid
           = some false ∧
       (apply_user_filters (get_user_authorization find_user fetch_ids) s).validation_message
           = some ("Authorization failed: User not found".toList)) := by
  refine ⟨?_, ?_, ?_⟩
  · intro find_user fetch_ids email h
    rw [user_not_found_error find_user fetch_ids email h]
  · intro find_user fetch_ids email u e hf hadm hfe
    unfold get_user_authorization
    rw [hf]
    show (if is_admin_groups u.groups then []
          else get_accessible_project_ids fetch_ids (str_of_opt u.id)) = []
    rw [hadm]
    show get_accessible_project_ids fetch_ids (str_of_opt u.id) = []
    unfold get_accessible_project_ids
    rw [hfe]
  · intro find_user fetch_ids s email gsql hse hne hsq hgne hfu
    have he1 : email.isEmpty = false := by
      cases email with
      | nil => exact absurd rfl hne
      | cons c cs => rfl
    have he2 : gsql.isEmpty = false := by
      cases gsql with
      | nil => exact absurd rfl hgne
      | cons c cs => rfl
    obtain ⟨ue, gs, vm, iv, er, uid, ia, api, os, ms⟩ := s
    have hse2 : ue = some email := hse
    have hsq2 : gs = some gsql := hsq
    subst hse2
    subst hsq2
    unfold apply_user_filters
    simp only [he1, he2, Bool.false_eq_true, if_false,
               user_not_found_error find_user fetch_ids email hfu]
    exact ⟨rfl, rfl⟩

/-- Witness for C8: all three conjuncts applied with concrete collaborators. -/
theorem c8_authorization_failure_semantics_witness :
    (get_user_authorization (fun _ => none)
        (fun _ => Except.ok []) ("a@b.c".toList)).error
      = some ("User not found".toList) ∧
    (get_user_authorization
        (fun _ => some { id := some ("u1".toList), groups := none })
        (fun _ => Except.error ("db down".toList)) ("a@b.c".toList)).accessible_project_ids
      = [] ∧
    (apply_user_filters
        (get_user_authorization (fun _ => none) (fun _ => Except.ok []))
        { user_email := some ("a@b.c".toList),
          generated_sql := some ("SELECT 1".toList),
          validation_message := none, is_valid := none, error := none,
          user_id := none, is_admin := none, accessible_project_ids := none,
          original_sql := none, messages := [] }).is_valid = some false :=
  ⟨c8_authorization_failure_semantics.1 (fun _ => none) (fun _ => Except.ok [])
      ("a@b.c".toList) rfl,
   c8_authorization_failure_semantics.2.1
      (fun _ => some { id := some ("u1".toList), groups := none })
      (fun _ => Except.error ("db down".toList)) ("a@b.c".toList)
      { id := some ("u1".toList), groups := none } ("db down".toList)
      rfl rfl rfl,
   (c8_authorization_failure_semantics.2.2 (fun _ => none) (fun _ => Except.ok [])
      { user_email := some ("a@b.c".toList),
        generated_sql := some ("SELECT 1".toList),
        validation_message := none, is_valid := none, error := none,
        user_id := none, is_admin := none, accessible_project_ids := none,
        original_sql := none, messages := [] }
      ("a@b.c".toList) ("SELECT 1".toList) rfl (by simp) rfl (by simp) rfl).1⟩

/--
Claim C10: when the filtering step is invoked with a missing or empty
user email, it marks the request invalid with the email-required
message and leaves the generated SQL unchanged.
-/
theorem c10_missing_email (authorize : List Char → AuthInfo) (s : FilterState)
    (h : s.user_email = none ∨ s.user_email = some []) :
    (apply_user_filters authorize s).validation_message = some email_required_message ∧
    (apply_user_filters authorize s).is_valid = some false ∧
    (apply_user_filters authorize s).generated_sql = s.generated_sql := by
  unfold apply_user_filters
  rcases h with h | h <;> rw [h]
  · exact ⟨rfl, rfl, rfl⟩
  · exact ⟨rfl, rfl, rfl⟩

/-- Witness for C10 at a concrete state without a user email. -/
theorem c10_missing_email_witness :
    (apply_user_filters (fun _ => auth_no_ids)
        { user_email := none, generated_sql := some ("SELECT 1".toList),
          validation_message := none, is_valid := none, error := none,
          user_id := none, is_admin := none, accessible_project_ids := none,
          original_sql := none, messages := [] }).generated_sql
      = some ("SELECT 1".toList) :=
  (c10_missing_email (fun _ => auth_no_ids) _ (Or.inl rfl)).2.2

end Text2Sql
